import Mathlib

/-! MXLogger: severity scale and storage policy (Core/log_enum.h)

A shallow embedding of the two constant tables and the two integer-backed
enumerations declared in `Core/log_enum.h`, followed by the level classifier
and the rotation policy resolver that consume them.
-/

namespace MXLogger

/-! ## Constant tables (log_enum.h, lines 12-13) -/

/-- Severity display names: `static const char *level_names[]`. -/
def level_names : List String := ["DEBUG", "INFO", "WARN", "ERROR", "FATAL"]

/-- Severity icon glyphs: `static const char * level_icons[]`. -/
def level_icons : List String := ["🟩", "🟦", "🟨", "🟥", "❌"]

/-! ## Enumerations (log_enum.h, lines 14-36) -/

namespace policy

/-- Storage policy: `enum storage_policy : int`. -/
inductive storage_policy where
  | yyyy_MM
  | yyyy_ww
  | yyyy_MM_dd
  | yyyy_MM_dd_HH
  deriving DecidableEq, Repr

/-- Enumerator values of `storage_policy` as written in the header. -/
def storage_policy.toInt : storage_policy → Int
  | .yyyy_MM => 0
  | .yyyy_ww => 1
  | .yyyy_MM_dd => 2
  | .yyyy_MM_dd_HH => 3

/-- Conversion of an `int` to `storage_policy`, defined on the enumerator
values only. -/
def storage_policy.ofInt? (n : Int) : Option storage_policy :=
  if n = 0 then some .yyyy_MM
  else if n = 1 then some .yyyy_ww
  else if n = 2 then some .yyyy_MM_dd
  else if n = 3 then some .yyyy_MM_dd_HH
  else none

/-- All enumerators of `storage_policy`, in declaration order. -/
def storage_policy.all : List storage_policy :=
  [.yyyy_MM, .yyyy_ww, .yyyy_MM_dd, .yyyy_MM_dd_HH]

end policy

namespace level

/-- Severity: `enum level_enum : int`. -/
inductive level_enum where
  | debug
  | info
  | warn
  | error
  | fatal
  deriving DecidableEq, Repr

/-- Enumerator values of `level_enum` as written in the header. -/
def level_enum.toInt : level_enum → Int
  | .debug => 0
  | .info => 1
  | .warn => 2
  | .error => 3
  | .fatal => 4

/-- Conversion of an `int` to `level_enum`, defined on the enumerator values
only. -/
def level_enum.ofInt? (n : Int) : Option level_enum :=
  if n = 0 then some .debug
  else if n = 1 then some .info
  else if n = 2 then some .warn
  else if n = 3 then some .error
  else if n = 4 then some .fatal
  else none

/-- All enumerators of `level_enum`, in declaration order. -/
def level_enum.all : List level_enum :=
  [.debug, .info, .warn, .error, .fatal]

end level

open policy level

/-- Subscript of a table by an `int` index: `table[i]`, with the access
outside the table made explicit as `none`. -/
def tableAt (table : List String) (i : Int) : Option String :=
  if i < 0 then none else table[i.toNat]?

/-! ## Level classifier -/

/-- Failure conditions signalled to the caller. -/
inductive LogError where
  | InvalidLevel
  | InvalidPolicy
  deriving DecidableEq, Repr

/-- Modelled from the spec: `rank`, absent from the header; the ordinal of a
severity is its position in the fixed order, failing with `InvalidLevel` on a
tag that is no known severity. -/
def rank (tag : Int) : Except LogError Int :=
  match level_enum.ofInt? tag with
  | some l => .ok l.toInt
  | none => .error .InvalidLevel

/-- Modelled from the spec: `name`, absent from the header; the display name
is the entry of `level_names` at the ordinal of the severity, failing with
`InvalidLevel` on a tag that is no known severity. -/
def name (tag : Int) : Except LogError String :=
  match level_enum.ofInt? tag with
  | some l =>
    match tableAt level_names l.toInt with
    | some s => .ok s
    | none => .error .InvalidLevel
  | none => .error .InvalidLevel

/-- Modelled from the spec: `icon`, absent from the header; the glyph is the
entry of `level_icons` at the ordinal of the severity, failing with
`InvalidLevel` on a tag that is no known severity. -/
def icon (tag : Int) : Except LogError String :=
  match level_enum.ofInt? tag with
  | some l =>
    match tableAt level_icons l.toInt with
    | some s => .ok s
    | none => .error .InvalidLevel
  | none => .error .InvalidLevel

/-- Modelled from the spec: `passes`, absent from the header; the sole
filtering rule, `rank(level) >= rank(threshold)`. -/
def passes (lvl threshold : level_enum) : Bool :=
  decide (lvl.toInt ≥ threshold.toInt)

/-! ## Rotation policy resolver -/

/-- An instant as supplied by the caller, in calendar fields. -/
structure Instant where
  year : Nat
  month : Nat
  day : Nat
  hour : Nat
  minute : Nat
  second : Nat
  deriving DecidableEq, Repr

/-- Decimal rendering of `n`, left-padded with zeros to `width` characters. -/
def zeroPad (width n : Nat) : String :=
  let digits := Nat.toDigits 10 n
  String.mk (List.replicate (width - digits.length) '0' ++ digits)

/-- Modelled from the spec: `bucketKey`, absent from the header; one
fixed-width, zero-padded format per granularity. The week-of-year numbering
is left to the caller and enters as `weekOfYear`. -/
def bucketKey (weekOfYear : Instant → Nat) (t : Instant) : storage_policy → String
  | .yyyy_MM => zeroPad 4 t.year ++ "-" ++ zeroPad 2 t.month
  | .yyyy_ww => zeroPad 4 t.year ++ "-" ++ zeroPad 2 (weekOfYear t)
  | .yyyy_MM_dd =>
    zeroPad 4 t.year ++ "-" ++ zeroPad 2 t.month ++ "-" ++ zeroPad 2 t.day
  | .yyyy_MM_dd_HH =>
    zeroPad 4 t.year ++ "-" ++ zeroPad 2 t.month ++ "-" ++ zeroPad 2 t.day
      ++ "-" ++ zeroPad 2 t.hour

/-- Modelled from the spec: `bucketKey` on a raw granularity tag, absent from
the header; an unrecognised tag fails with `InvalidPolicy`. -/
def bucketKeyOfTag (weekOfYear : Instant → Nat) (t : Instant) (tag : Int) :
    Except LogError String :=
  match storage_policy.ofInt? tag with
  | some g => .ok (bucketKey weekOfYear t g)
  | none => .error .InvalidPolicy

/-- Modelled from the spec: `hasRotated`, absent from the header; true iff
the bucket key of the current instant differs from the previous key. -/
def hasRotated (weekOfYear : Instant → Nat) (previousKey : String) (t : Instant)
    (g : storage_policy) : Bool :=
  bucketKey weekOfYear t g != previousKey

/-- The fixed severity order as the specification lists it. -/
def severityOrder : List level_enum :=
  [.debug, .info, .warn, .error, .fatal]

/-- Strict precedence in the fixed severity order: `a` stands at an earlier
position of `severityOrder` than `b`. -/
def precedes (a b : level_enum) : Prop :=
  severityOrder.indexOf a < severityOrder.indexOf b

instance (a b : level_enum) : Decidable (precedes a b) :=
  inferInstanceAs (Decidable (_ < _))

/-! ## Properties of the tables and enumerations -/

/-- C1: `level_names` has exactly 5 entries, reads DEBUG, INFO, WARN, ERROR,
FATAL in index order, and the entry at the integer code of each severity is
that severity's display name. -/
theorem level_names_by_code :
    level_names.length = 5 ∧
    level_names = ["DEBUG", "INFO", "WARN", "ERROR", "FATAL"] ∧
    tableAt level_names level_enum.debug.toInt = some "DEBUG" ∧
    tableAt level_names level_enum.info.toInt = some "INFO" ∧
    tableAt level_names level_enum.warn.toInt = some "WARN" ∧
    tableAt level_names level_enum.error.toInt = some "ERROR" ∧
    tableAt level_names level_enum.fatal.toInt = some "FATAL" := by
  decide

/-- C2: `storage_policy` has exactly four values, with codes yyyy_MM = 0,
yyyy_ww = 1, yyyy_MM_dd = 2, yyyy_MM_dd_HH = 3; the code map is injective and
converting a value to its code and back returns the value. -/
theorem storage_policy_codes :
    (∀ p : storage_policy, p ∈ storage_policy.all) ∧
    storage_policy.all.length = 4 ∧ storage_policy.all.Nodup ∧
    storage_policy.yyyy_MM.toInt = 0 ∧
    storage_policy.yyyy_ww.toInt = 1 ∧
    storage_policy.yyyy_MM_dd.toInt = 2 ∧
    storage_policy.yyyy_MM_dd_HH.toInt = 3 ∧
    Function.Injective storage_policy.toInt ∧
    (∀ p : storage_policy, storage_policy.ofInt? p.toInt = some p) := by
  refine ⟨?_, by decide, by decide, rfl, rfl, rfl, rfl, ?_, ?_⟩
  · intro p; cases p <;> decide
  · intro p q h; cases p <;> cases q <;> first | rfl | exact absurd h (by decide)
  · intro p; cases p <;> decide

/-- C3: with the rank of a severity taken as its integer code, the rank of
`a` is below the rank of `b` exactly when `a` strictly precedes `b` in debug,
info, warn, error, fatal; every severity has a rank, the ranks ascend along
that sequence, and distinct severities have distinct ranks. -/
theorem rank_lt_iff_precedes :
    (∀ a b : level_enum, a.toInt < b.toInt ↔ precedes a b) ∧
    (∀ a : level_enum, 0 ≤ a.toInt ∧ a.toInt ≤ 4) ∧
    (level_enum.debug.toInt < level_enum.info.toInt ∧
      level_enum.info.toInt < level_enum.warn.toInt ∧
      level_enum.warn.toInt < level_enum.error.toInt ∧
      level_enum.error.toInt < level_enum.fatal.toInt) ∧
    Function.Injective level_enum.toInt ∧
    (∀ a b : level_enum, a.toInt < b.toInt ∨ a = b ∨ b.toInt < a.toInt) := by
  refine ⟨?_, ?_, by decide, ?_, ?_⟩
  · intro a b; cases a <;> cases b <;> decide
  · intro a; cases a <;> decide
  · intro a b h; cases a <;> cases b <;> first | rfl | exact absurd h (by decide)
  · intro a b; cases a <;> cases b <;> decide

/-- C4: for each of the five severities the integer code is non-negative and
below the length of both `level_names` and `level_icons`, so the subscript of
either table by the code yields an entry and never falls outside the table. -/
theorem level_code_in_bounds :
    (∀ l : level_enum, l ∈ level_enum.all) ∧ level_enum.all.length = 5 ∧
    (∀ l : level_enum,
      0 ≤ l.toInt ∧ l.toInt.toNat < level_names.length ∧
      l.toInt.toNat < level_icons.length ∧
      (∃ s, tableAt level_names l.toInt = some s) ∧
      (∃ s, tableAt level_icons l.toInt = some s) ∧
      tableAt level_names l.toInt ≠ none ∧
      tableAt level_icons l.toInt ≠ none) := by
  refine ⟨?_, by decide, ?_⟩
  · intro l; cases l <;> decide
  · intro l
    cases l <;>
      exact ⟨by decide, by decide, by decide, ⟨_, rfl⟩, ⟨_, rfl⟩, by decide, by decide⟩

/-- C5: `level_icons` and `level_names` both have length 5, the number of
severities, and at each index 0..4 the name and the icon are those of the
severity with that code: (DEBUG, 🟩), (INFO, 🟦), (WARN, 🟨), (ERROR, 🟥),
(FATAL, ❌). -/
theorem names_icons_aligned :
    level_names.length = level_icons.length ∧ level_icons.length = 5 ∧
    level_enum.all.length = 5 ∧
    level_names.zip level_icons =
      [("DEBUG", "🟩"), ("INFO", "🟦"), ("WARN", "🟨"), ("ERROR", "🟥"),
        ("FATAL", "❌")] ∧
    (tableAt level_names level_enum.debug.toInt,
      tableAt level_icons level_enum.debug.toInt) = (some "DEBUG", some "🟩") ∧
    (tableAt level_names level_enum.info.toInt,
      tableAt level_icons level_enum.info.toInt) = (some "INFO", some "🟦") ∧
    (tableAt level_names level_enum.warn.toInt,
      tableAt level_icons level_enum.warn.toInt) = (some "WARN", some "🟨") ∧
    (tableAt level_names level_enum.error.toInt,
      tableAt level_icons level_enum.error.toInt) = (some "ERROR", some "🟥") ∧
    (tableAt level_names level_enum.fatal.toInt,
      tableAt level_icons level_enum.fatal.toInt) = (some "FATAL", some "❌") := by
  decide

/-- C6: the granularity codes ascend from coarsest to finest, yyyy_MM below
yyyy_ww below yyyy_MM_dd below yyyy_MM_dd_HH, and no two values share a
code. -/
theorem storage_policy_code_order :
    storage_policy.yyyy_MM.toInt < storage_policy.yyyy_ww.toInt ∧
    storage_policy.yyyy_ww.toInt < storage_policy.yyyy_MM_dd.toInt ∧
    storage_policy.yyyy_MM_dd.toInt < storage_policy.yyyy_MM_dd_HH.toInt ∧
    (∀ p q : storage_policy, p ≠ q → p.toInt ≠ q.toInt) ∧
    (∀ p q : storage_policy, p.toInt < q.toInt ∨ p = q ∨ q.toInt < p.toInt) := by
  refine ⟨by decide, by decide, by decide, ?_, ?_⟩
  · intro p q; cases p <;> cases q <;> decide
  · intro p q; cases p <;> cases q <;> decide

/-- C10: the five entries of `level_names` are pairwise distinct, as are the
five entries of `level_icons`, so two severities with the same name or the
same icon are the same severity. -/
theorem names_icons_injective :
    level_names.Nodup ∧ level_icons.Nodup ∧
    level_names.length = 5 ∧ level_icons.length = 5 ∧
    (∀ a b : level_enum,
      tableAt level_names a.toInt = tableAt level_names b.toInt → a = b) ∧
    (∀ a b : level_enum,
      tableAt level_icons a.toInt = tableAt level_icons b.toInt → a = b) := by
  refine ⟨by decide, by decide, by decide, by decide, ?_, ?_⟩
  · intro a b; cases a <;> cases b <;> decide
  · intro a b; cases a <;> cases b <;> decide

/-! ## Properties of the classifier and the resolver -/

/-- No severity has a code outside 0..4. -/
lemma level_ofInt_none (n : Int) (h : n < 0 ∨ 4 < n) : level_enum.ofInt? n = none := by
  unfold level_enum.ofInt?
  have h0 : n ≠ 0 := by omega
  have h1 : n ≠ 1 := by omega
  have h2 : n ≠ 2 := by omega
  have h3 : n ≠ 3 := by omega
  have h4 : n ≠ 4 := by omega
  simp [h0, h1, h2, h3, h4]

/-- No granularity has a code outside 0..3. -/
lemma policy_ofInt_none (m : Int) (h : m < 0 ∨ 3 < m) : storage_policy.ofInt? m = none := by
  unfold storage_policy.ofInt?
  have h0 : m ≠ 0 := by omega
  have h1 : m ≠ 1 := by omega
  have h2 : m ≠ 2 := by omega
  have h3 : m ≠ 3 := by omega
  simp [h0, h1, h2, h3]

/-- Neither table has an entry at an index outside 0..4. -/
lemma tableAt_out_of_range (table : List String) (hlen : table.length = 5) (n : Int)
    (h : n < 0 ∨ 4 < n) : tableAt table n = none := by
  unfold tableAt
  split
  · rfl
  · rw [List.getElem?_eq_none_iff]
    omega

/-- C7: for every integer tag `n` below 0 or above 4 neither table has an
entry at `n`, and `rank`, `name` and `icon` signal `InvalidLevel`; for every
granularity tag `m` below 0 or above 3, `bucketKey` signals
`InvalidPolicy`. -/
theorem out_of_range_tag_signals (n m : Int) (hn : n < 0 ∨ n > 4) (hm : m < 0 ∨ m > 3)
    (weekOfYear : Instant → Nat) (t : Instant) :
    tableAt level_names n = none ∧ tableAt level_icons n = none ∧
    rank n = .error .InvalidLevel ∧
    name n = .error .InvalidLevel ∧
    icon n = .error .InvalidLevel ∧
    bucketKeyOfTag weekOfYear t m = .error .InvalidPolicy := by
  have hl := level_ofInt_none n hn
  have hp := policy_ofInt_none m hm
  refine ⟨tableAt_out_of_range level_names rfl n hn,
    tableAt_out_of_range level_icons rfl n hn, ?_, ?_, ?_, ?_⟩
  · simp [rank, hl]
  · simp [name, hl]
  · simp [icon, hl]
  · simp [bucketKeyOfTag, hp]

/-- C7 at the tags 5 and -1. -/
theorem out_of_range_tag_signals_witness :
    ((5 : Int) < 0 ∨ (5 : Int) > 4) ∧ ((-1 : Int) < 0 ∨ (-1 : Int) > 3) ∧
    tableAt level_names 5 = none ∧ tableAt level_icons 5 = none ∧
    rank 5 = .error .InvalidLevel ∧
    name 5 = .error .InvalidLevel ∧
    icon 5 = .error .InvalidLevel ∧
    bucketKeyOfTag (fun _ => 13) ⟨2024, 3, 31, 23, 59, 59⟩ (-1) = .error .InvalidPolicy :=
  ⟨by decide, by decide,
    out_of_range_tag_signals 5 (-1) (by decide) (by decide) (fun _ => 13)
      ⟨2024, 3, 31, 23, 59, 59⟩⟩

/-- C8: for all severities, `passes level threshold` equals the comparison
of the integer codes `rank(level) >= rank(threshold)`; `passes fatal fatal`
is true and `passes debug fatal` is false. -/
theorem passes_eq_rank_ge :
    (∀ lvl threshold : level_enum,
      passes lvl threshold = decide (lvl.toInt ≥ threshold.toInt) ∧
      (passes lvl threshold = true ↔
        rank lvl.toInt = .ok lvl.toInt ∧ rank threshold.toInt = .ok threshold.toInt ∧
          lvl.toInt ≥ threshold.toInt)) ∧
    passes .fatal .fatal = true ∧
    passes .debug .fatal = false := by
  refine ⟨?_, by decide, by decide⟩
  intro lvl threshold
  refine ⟨rfl, ?_⟩
  cases lvl <;> cases threshold <;> simp [passes, rank, level_enum.ofInt?, level_enum.toInt]

/-- C9: under yyyy_MM_dd the bucket key of 2024-03-31T23:59:59 is
"2024-03-31", that of 2024-04-01T00:00:00 is "2024-04-01", and `hasRotated`
from "2024-03-31" at 2024-04-01T00:00:00 is true; in general `hasRotated` is
true exactly when the bucket key of the instant differs from the previous
key. -/
theorem daily_rotation_boundary (weekOfYear : Instant → Nat) :
    bucketKey weekOfYear ⟨2024, 3, 31, 23, 59, 59⟩ .yyyy_MM_dd = "2024-03-31" ∧
    bucketKey weekOfYear ⟨2024, 4, 1, 0, 0, 0⟩ .yyyy_MM_dd = "2024-04-01" ∧
    hasRotated weekOfYear "2024-03-31" ⟨2024, 4, 1, 0, 0, 0⟩ .yyyy_MM_dd = true ∧
    (∀ (previousKey : String) (t : Instant) (g : storage_policy),
      hasRotated weekOfYear previousKey t g = true ↔
        bucketKey weekOfYear t g ≠ previousKey) := by
  refine ⟨?_, ?_, ?_, ?_⟩
  · simp only [bucketKey]; decide
  · simp only [bucketKey]; decide
  · simp only [hasRotated, bucketKey]; decide
  · intro previousKey t g
    simp [hasRotated]

end MXLogger
